import Mathlib

/-!
Shallow embedding of `ghostenv` (src/ghostenv/main.py): a CLI that creates a
temporary virtual environment, installs packages into it, hands control to the
user (script / IDE / REPL) and then cleans the environment up.

The controller `run` (main.py lines 275-394) is embedded as a pure function
over a `World` oracle which fixes the outcome of every external collaborator
(temp-dir allocation, venv creation, pip, subprocesses, the filesystem) and the
point, if any, at which a KeyboardInterrupt arrives.  The function returns the
process exit code together with a trace of the externally visible effects, in
order.  Python exceptions are modelled with `Except`: the body of the `try`
block returns `Except Exc Int`, and `run` applies the two `except` handlers
(lines 380-394) to the body's outcome.
-/

/-- External effects of the controller, recorded in order. -/
inductive Effect where
  /-- `tempfile.mkdtemp` succeeded (line 294): the root directory now exists. -/
  | mkdtemp : Effect
  /-- the environment-creation collaborator `venv.create` was invoked (line 26). -/
  | venvCreate : Effect
  /-- the installer was invoked with `-r <requirements-file>` (line 71). -/
  | pipInstallReq : Effect
  /-- the installer was invoked with the explicit package list (line 52). -/
  | pipInstallPkgs : Effect
  /-- the synthesized test script was written, with the given lines (lines 235-236). -/
  | writeTestFile : List String → Effect
  /-- an IDE open was attempted on the test file (line 337). -/
  | openIde : Effect
  /-- the environment's interpreter was invoked on a user script (line 91). -/
  | interpRunScript : String → Effect
  /-- an interactive REPL session on the environment's interpreter (lines 268-270). -/
  | startRepl : Effect
  /-- the keep-branch report (lines 369-372): root path printed, and the test
      file's path too when the flag is `true`. -/
  | reportKeep : Bool → Effect
  /-- `shutil.rmtree` on the root; the flag records `ignore_errors`. -/
  | rmtree : Bool → Effect
  deriving DecidableEq, Repr

/-- The point at which a single KeyboardInterrupt arrives, if any.  The
interrupt fires only if control actually reaches the named blocking
operation. -/
inductive IPoint where
  /-- no interrupt during this invocation. -/
  | nothing : IPoint
  /-- during `tempfile.mkdtemp`, before `temp_dir` is assigned (line 294). -/
  | atMkdtemp : IPoint
  /-- during `venv.create` (line 26); `create_virtual_environment` catches only
      `Exception`, and `KeyboardInterrupt` is a `BaseException`, so it escapes. -/
  | atVenvCreate : IPoint
  /-- during the pip subprocess of `install_from_requirements` (line 72). -/
  | atInstallReq : IPoint
  /-- during the pip subprocess of `install_packages` (line 53). -/
  | atInstallPkgs : IPoint
  /-- during the `choose_ide` prompt; caught inside `choose_ide` (lines 179-181),
      which then returns `None`. -/
  | atIdeChoose : IPoint
  /-- during the IDE wait (lines 345-353); caught by the inner handler at
      line 354, after which control falls through to the cleanup code. -/
  | atIdeWait : IPoint
  /-- during the interactive REPL session (lines 268-270); `start_repl` catches
      only `Exception`, so it escapes. -/
  | atRepl : IPoint
  /-- during `shutil.rmtree(temp_dir)` at line 375. -/
  | atCleanup : IPoint
  deriving DecidableEq, Repr

/-- Python exceptions the embedding distinguishes. -/
inductive Exc where
  /-- `KeyboardInterrupt`, handled at line 380. -/
  | keyboardInterrupt : Exc
  /-- the `TypeError` raised at line 326 by calling the string option
      `run_script`; handled by the generic `except Exception` at line 388. -/
  | typeError : Exc
  /-- any other `Exception` (failed `mkdtemp`, failed `rmtree`), handled at
      line 388. -/
  | osError : Exc
  deriving DecidableEq, Repr

/-- Oracle fixing the outcome of every external collaborator for one
invocation. -/
structure World where
  /-- `tempfile.mkdtemp` succeeds (line 294). -/
  mkdtempOk : Bool
  /-- `venv.create` succeeds, i.e. `create_virtual_environment` returns True. -/
  venvOk : Bool
  /-- `os.path.exists(requirements_file)` (line 65). -/
  reqFileExists : Bool
  /-- the pip `-r` subprocess exits 0 (line 72). -/
  pipReqOk : Bool
  /-- the pip install subprocess for the package list exits 0 (line 53). -/
  pipPkgsOk : Bool
  /-- `os.path.exists(script_path)` (line 84). -/
  scriptExists : Bool
  /-- `subprocess.run` in `run_script` raises an `Exception` (line 93). -/
  scriptRunRaises : Bool
  /-- exit code of the user script's subprocess (line 92). -/
  scriptExit : Int
  /-- `choose_ide` would return an IDE rather than `None` (lines 149-181). -/
  chosenIde : Bool
  /-- `open_file_in_ide` returns a process rather than `None` (lines 240-255). -/
  ideOpenOk : Bool
  /-- exit status of the interactive REPL session (lines 268-270). -/
  replExit : Int
  /-- the plain `shutil.rmtree(temp_dir)` at line 375 succeeds. -/
  rmtreeOk : Bool
  /-- where, if anywhere, a KeyboardInterrupt arrives. -/
  interrupt : IPoint
  deriving DecidableEq, Repr

/-- Arguments of the `run` command (lines 276-282).  `packages = []` stands for
typer's `None`; the option strings model Python truthiness, so `some ""` is
falsy like `None`. -/
structure RunArgs where
  /-- positional package specifiers. -/
  packages : List String
  /-- `--keep`. -/
  keep : Bool
  /-- `--run`; bound to the name `run_script` inside `run`, where it shadows
      the module-level function `run_script` (line 80). -/
  run_script : Option String
  /-- `--requirements`. -/
  requirements : Option String
  /-- `--ide`. -/
  ide : Bool
  deriving DecidableEq, Repr

/-- Python truthiness of the `packages` argument (`None`/`[]` are falsy). -/
def pkgsTruthy (a : RunArgs) : Bool := !a.packages.isEmpty

/-- Python truthiness of the `requirements` option (`None`/`""` are falsy). -/
def reqTruthy (a : RunArgs) : Bool := a.requirements.getD "" != ""

/-- Python truthiness of the `run_script` option (`None`/`""` are falsy). -/
def runScriptTruthy (a : RunArgs) : Bool := a.run_script.getD "" != ""

/-- Lines 22-30, `create_virtual_environment`: invoke `venv.create`; the
`except Exception` there does not catch a KeyboardInterrupt. -/
def create_virtual_environment (w : World) : Except Exc Bool × List Effect :=
  if w.interrupt = IPoint.atVenvCreate then
    (Except.error Exc.keyboardInterrupt, [Effect.venvCreate])
  else (Except.ok w.venvOk, [Effect.venvCreate])

/-- Lines 46-59, `install_packages`: invoke pip on the package list; only
`CalledProcessError` is caught (as a False result), a KeyboardInterrupt
escapes. -/
def install_packages (w : World) : Except Exc Bool × List Effect :=
  if w.interrupt = IPoint.atInstallPkgs then
    (Except.error Exc.keyboardInterrupt, [Effect.pipInstallPkgs])
  else (Except.ok w.pipPkgsOk, [Effect.pipInstallPkgs])

/-- Lines 61-78, `install_from_requirements`: if the requirements file does not
exist, return False without invoking pip (lines 65-67); otherwise invoke pip
with `-r`, catching only `CalledProcessError`. -/
def install_from_requirements (w : World) : Except Exc Bool × List Effect :=
  if !w.reqFileExists then (Except.ok false, [])
  else if w.interrupt = IPoint.atInstallReq then
    (Except.error Exc.keyboardInterrupt, [Effect.pipInstallReq])
  else (Except.ok w.pipReqOk, [Effect.pipInstallReq])

/-- Lines 80-95, the module-level function `run_script`: if the script file
does not exist, print and return 1 without invoking the interpreter
(lines 84-86); otherwise run it and return its exit code, turning any
`Exception` from the subprocess machinery into 1. -/
def run_script (w : World) (scriptPath : String) : Int × List Effect :=
  if !w.scriptExists then (1, [])
  else if w.scriptRunRaises then (1, [Effect.interpRunScript scriptPath])
  else (w.scriptExit, [Effect.interpRunScript scriptPath])

/-- Lines 149-181, `choose_ide`: interactive prompt; a KeyboardInterrupt during
the prompt is caught inside (lines 179-181) and turned into `None` (REPL). -/
def choose_ide (w : World) : Bool :=
  if w.interrupt = IPoint.atIdeChoose then false else w.chosenIde

/-- Lines 257-273, `start_repl`: interactive session; `except Exception` does
not catch a KeyboardInterrupt, which escapes to the caller. -/
def start_repl (w : World) : Except Exc Int × List Effect :=
  if w.interrupt = IPoint.atRepl then
    (Except.error Exc.keyboardInterrupt, [Effect.startRepl])
  else (Except.ok w.replExit, [Effect.startRepl])

/-- ASCII lower-casing of one character, as Python's `str.lower` does for the
ASCII range (package names are ASCII). -/
def charLower (c : Char) : Char :=
  if 65 ≤ c.toNat ∧ c.toNat ≤ 90 then Char.ofNat (c.toNat + 32) else c

/-- Python's `package.lower()` (line 193 etc.), restricted to ASCII. -/
def pyLower (s : String) : String := ⟨s.data.map charLower⟩

/-- Lines 192-230: the per-package sample code of `create_test_file`.  Only the
exact names `requests`, `pandas`, `numpy` (case-insensitively) get curated
samples; every other package string is spliced verbatim into a generic
`import` block. -/
def sampleFor (package : String) : List String :=
  if pyLower package = "requests" then
    ["import requests",
     "",
     "# Test HTTP requests",
     "response = requests.get(\x27https://httpbin.org/json\x27)",
     "print(\x27Response:\x27, response.json())",
     "print(\x27Status:\x27, response.status_code)",
     ""]
  else if pyLower package = "pandas" then
    ["import pandas as pd",
     "",
     "# Test pandas DataFrame",
     "df = pd.DataFrame(\x7b\x27A\x27: [1, 2, 3], \x27B\x27: [4, 5, 6]\x7d)",
     "print(\x27DataFrame:\x27)",
     "print(df)",
     ""]
  else if pyLower package = "numpy" then
    ["import numpy as np",
     "",
     "# Test numpy array",
     "arr = np.array([1, 2, 3, 4, 5])",
     "print(\x27Array:\x27, arr)",
     "print(\x27Mean:\x27, np.mean(arr))",
     ""]
  else
    ["import " ++ package,
     "print(\x27" ++ package ++ " imported successfully\x27)",
     "print(\x27" ++ package ++ " version:\x27, getattr(" ++ package ++
       ", \x27__version__\x27, \x27Unknown\x27))",
     ""]

/-- Lines 183-238, `create_test_file`: the lines of the synthesized test
script for the given package list. -/
def create_test_file (packages : List String) : List String :=
  ["# Test script for ghostenv",
   "# This file will be automatically deleted when you exit\n"]
  ++ packages.flatMap sampleFor
  ++ ["# Add your test code here!",
      "# When you\x27re done testing, this file will be automatically deleted"]

/-- Outcome of the setup phase of `run` (lines 293-318): either an early
`return` out of the `try` body, an escaping exception, or fall-through to the
activation phase. -/
inductive SetupRes where
  /-- a plain `return code` was executed inside the `try` body. -/
  | earlyRet : Int → SetupRes
  /-- an exception escaped. -/
  | raised : Exc → SetupRes
  /-- control proceeds to line 320. -/
  | proceed : SetupRes
  deriving DecidableEq, Repr

/-- Lines 309-318 of `run`: install the explicit package list if given
(`return 1` on failure, line 311), else fail validation when no requirements
file was given either (`return 1`, line 318). -/
def setupPkgs (a : RunArgs) (w : World) (t : List Effect) :
    SetupRes × List Effect × Bool :=
  if pkgsTruthy a then
    match install_packages w with
    | (Except.error e, t2) => (SetupRes.raised e, t ++ t2, true)
    | (Except.ok false, t2) => (SetupRes.earlyRet 1, t ++ t2, true)
    | (Except.ok true, t2) => (SetupRes.proceed, t ++ t2, true)
  else if !reqTruthy a then (SetupRes.earlyRet 1, t, true)
  else (SetupRes.proceed, t, true)

/-- Lines 293-318 of `run`: allocate the temp root (line 294), create the venv
(lines 300-301), install from the requirements file if given (lines 304-306),
then the package list / validation step.  The third component records whether
`temp_dir` was assigned (truthy) when the phase ended. -/
def setupStage (a : RunArgs) (w : World) : SetupRes × List Effect × Bool :=
  if w.interrupt = IPoint.atMkdtemp then
    (SetupRes.raised Exc.keyboardInterrupt, [], false)
  else if !w.mkdtempOk then (SetupRes.raised Exc.osError, [], false)
  else
    match create_virtual_environment w with
    | (Except.error e, t1) => (SetupRes.raised e, Effect.mkdtemp :: t1, true)
    | (Except.ok false, t1) => (SetupRes.earlyRet 1, Effect.mkdtemp :: t1, true)
    | (Except.ok true, t1) =>
      if reqTruthy a then
        match install_from_requirements w with
        | (Except.error e, t2) =>
            (SetupRes.raised e, Effect.mkdtemp :: t1 ++ t2, true)
        | (Except.ok false, t2) =>
            (SetupRes.earlyRet 1, Effect.mkdtemp :: t1 ++ t2, true)
        | (Except.ok true, t2) => setupPkgs a w (Effect.mkdtemp :: t1 ++ t2)
      else setupPkgs a w (Effect.mkdtemp :: t1)

/-- Lines 320-365 of `run`: the activation phase.  Returns the session exit
code and whether a test file was created.  Note line 326: `run_script` there
is the string option bound at line 279, which shadows the module-level
function of the same name, so `run_script(env_path, run_script)` raises a
`TypeError` instead of running the script. -/
def activateStage (a : RunArgs) (w : World) :
    Except Exc (Int × Bool) × List Effect :=
  if runScriptTruthy a then (Except.error Exc.typeError, [])
  else if a.ide || (pkgsTruthy a && !runScriptTruthy a) then
    let lines := create_test_file a.packages
    if choose_ide w then
      if w.ideOpenOk then
        -- IDE wait (lines 343-357): a KeyboardInterrupt is caught by the
        -- inner handler at line 354; either way `exit_code` stays 0.
        (Except.ok (0, true), [Effect.writeTestFile lines, Effect.openIde])
      else
        -- line 359-360: failed to open the IDE, fall back to the REPL.
        match start_repl w with
        | (Except.error e, t2) =>
            (Except.error e, [Effect.writeTestFile lines, Effect.openIde] ++ t2)
        | (Except.ok c, t2) =>
            (Except.ok (c, true), [Effect.writeTestFile lines, Effect.openIde] ++ t2)
    else
      -- lines 362-363: no IDE selected, fall back to the REPL.
      match start_repl w with
      | (Except.error e, t2) => (Except.error e, Effect.writeTestFile lines :: t2)
      | (Except.ok c, t2) => (Except.ok (c, true), Effect.writeTestFile lines :: t2)
  else
    match start_repl w with
    | (Except.error e, t2) => (Except.error e, t2)
    | (Except.ok c, t2) => (Except.ok (c, false), t2)

/-- Lines 367-378 of `run`: the terminal retain-or-delete step.  With `--keep`
the root is reported (and the test file's path when one was created) and no
deletion is attempted; otherwise `shutil.rmtree(temp_dir)` runs *without*
`ignore_errors`, so a failure (or an interrupt) escapes this step. -/
def finalizeStep (keep : Bool) (w : World) (code : Int) (testFile : Bool) :
    Except Exc Int × List Effect :=
  if keep then (Except.ok code, [Effect.reportKeep testFile])
  else if w.interrupt = IPoint.atCleanup then
    (Except.error Exc.keyboardInterrupt, [Effect.rmtree false])
  else if !w.rmtreeOk then (Except.error Exc.osError, [Effect.rmtree false])
  else (Except.ok code, [Effect.rmtree false])

/-- The body of the `try` block of `run` (lines 293-378): setup, activation,
then the retain-or-delete step.  The Bool records whether `temp_dir` is
truthy when the body ends, which the `except` handlers test. -/
def runBody (a : RunArgs) (w : World) : Except Exc Int × List Effect × Bool :=
  match setupStage a w with
  | (SetupRes.raised e, t, alloc) => (Except.error e, t, alloc)
  | (SetupRes.earlyRet c, t, alloc) => (Except.ok c, t, alloc)
  | (SetupRes.proceed, t, _) =>
    match activateStage a w with
    | (Except.error e, t2) => (Except.error e, t ++ t2, true)
    | (Except.ok (code, tf), t2) =>
      match finalizeStep a.keep w code tf with
      | (Except.error e, t3) => (Except.error e, t ++ t2 ++ t3, true)
      | (Except.ok c, t3) => (Except.ok c, t ++ t2 ++ t3, true)

/-- Lines 275-394, the `run` command: the `try` body followed by the two
handlers.  `except KeyboardInterrupt` (lines 380-387) deletes the root with
`ignore_errors=True` when it was allocated and `--keep` is unset, and returns
130; `except Exception` (lines 388-394) does the same and returns 1. -/
def run (a : RunArgs) (w : World) : Int × List Effect :=
  match runBody a w with
  | (Except.ok c, t, _) => (c, t)
  | (Except.error Exc.keyboardInterrupt, t, alloc) =>
    if alloc && !a.keep then (130, t ++ [Effect.rmtree true]) else (130, t)
  | (Except.error _, t, alloc) =>
    if alloc && !a.keep then (1, t ++ [Effect.rmtree true]) else (1, t)

/-- Whether an effect is a finalize attempt in the sense of the spec: the
retain report or a deletion of the root. -/
def isFinalize : Effect → Bool
  | Effect.reportKeep _ => true
  | Effect.rmtree _ => true
  | _ => false

/-- Number of finalize attempts in a trace. -/
def finalizeCount (t : List Effect) : Nat := t.countP isFinalize

/-- A world in which every external collaborator succeeds, no IDE is selected
and no interrupt arrives. -/
def wOk : World :=
  { mkdtempOk := true, venvOk := true, reqFileExists := true, pipReqOk := true,
    pipPkgsOk := true, scriptExists := true, scriptRunRaises := false,
    scriptExit := 0, chosenIde := false, ideOpenOk := false, replExit := 0,
    rmtreeOk := true, interrupt := IPoint.nothing }

/-- The effects of a setup phase that falls through to activation. -/
def setupTrace (a : RunArgs) : List Effect :=
  [Effect.mkdtemp, Effect.venvCreate]
  ++ (if reqTruthy a then [Effect.pipInstallReq] else [])
  ++ (if pkgsTruthy a then [Effect.pipInstallPkgs] else [])

theorem setupTrace_no_finalize (a : RunArgs) :
    ∀ e ∈ setupTrace a, isFinalize e = false := by
  intro e he
  have h4 : e = Effect.mkdtemp ∨ e = Effect.venvCreate ∨
      e = Effect.pipInstallReq ∨ e = Effect.pipInstallPkgs := by
    by_cases hr : reqTruthy a <;> by_cases hp : pkgsTruthy a <;>
      simp [setupTrace, hr, hp] at he <;> tauto
  rcases h4 with rfl | rfl | rfl | rfl <;> rfl

theorem setupStage_proceed (a : RunArgs) (w : World)
    (hm : w.mkdtempOk = true) (hv : w.venvOk = true)
    (hi : w.interrupt = IPoint.nothing)
    (hrf : reqTruthy a = true → w.reqFileExists = true ∧ w.pipReqOk = true)
    (hpk : pkgsTruthy a = true → w.pipPkgsOk = true)
    (hone : pkgsTruthy a = true ∨ reqTruthy a = true) :
    setupStage a w = (SetupRes.proceed, setupTrace a, true) := by
  by_cases hr : reqTruthy a
  · obtain ⟨hf, hq⟩ := hrf hr
    by_cases hp : pkgsTruthy a
    · simp [setupStage, setupPkgs, create_virtual_environment,
        install_from_requirements, install_packages, setupTrace,
        hm, hv, hi, hr, hp, hf, hq, hpk hp]
    · simp [setupStage, setupPkgs, create_virtual_environment,
        install_from_requirements, install_packages, setupTrace,
        hm, hv, hi, hr, hp, hf, hq]
  · have hp : pkgsTruthy a = true := by tauto
    simp [setupStage, setupPkgs, create_virtual_environment,
      install_from_requirements, install_packages, setupTrace,
      hm, hv, hi, hr, hp, hpk hp]

theorem activateStage_ok (a : RunArgs) (w : World)
    (hi : w.interrupt = IPoint.nothing)
    (hrs : runScriptTruthy a = false) :
    ∃ c t2, activateStage a w = (Except.ok (c, a.ide || pkgsTruthy a), t2)
      ∧ ∀ e ∈ t2, isFinalize e = false := by
  by_cases hbr : (a.ide || pkgsTruthy a) = true
  · by_cases hc : w.chosenIde
    · by_cases ho : w.ideOpenOk
      · exact ⟨0, [Effect.writeTestFile (create_test_file a.packages), Effect.openIde],
          by simp [activateStage, choose_ide, hi, hrs, hbr, hc, ho],
          by simp [isFinalize]⟩
      · exact ⟨w.replExit,
          [Effect.writeTestFile (create_test_file a.packages), Effect.openIde,
           Effect.startRepl],
          by simp [activateStage, choose_ide, start_repl, hi, hrs, hbr, hc, ho],
          by simp [isFinalize]⟩
    · exact ⟨w.replExit,
        [Effect.writeTestFile (create_test_file a.packages), Effect.startRepl],
        by simp [activateStage, choose_ide, start_repl, hi, hrs, hbr, hc],
        by simp [isFinalize]⟩
  · exact ⟨w.replExit, [Effect.startRepl],
      by simp [activateStage, choose_ide, start_repl, hi, hrs, hbr],
      by simp [isFinalize]⟩

theorem run_reaches_finalize (a : RunArgs) (w : World)
    (hm : w.mkdtempOk = true) (hv : w.venvOk = true)
    (hi : w.interrupt = IPoint.nothing)
    (hrf : reqTruthy a = true → w.reqFileExists = true ∧ w.pipReqOk = true)
    (hpk : pkgsTruthy a = true → w.pipPkgsOk = true)
    (hone : pkgsTruthy a = true ∨ reqTruthy a = true)
    (hrs : runScriptTruthy a = false) :
    ∃ c t2, (∀ e ∈ t2, isFinalize e = false)
    ∧ (a.keep = true →
        run a w = (c, setupTrace a ++ t2 ++ [Effect.reportKeep (a.ide || pkgsTruthy a)]))
    ∧ (a.keep = false → w.rmtreeOk = true →
        run a w = (c, setupTrace a ++ t2 ++ [Effect.rmtree false]))
    ∧ (a.keep = false → w.rmtreeOk = false →
        run a w = (1, setupTrace a ++ t2 ++ [Effect.rmtree false, Effect.rmtree true])) := by
  obtain ⟨c, t2, hact, hnf⟩ := activateStage_ok a w hi hrs
  have hset := setupStage_proceed a w hm hv hi hrf hpk hone
  refine ⟨c, t2, hnf, ?_, ?_, ?_⟩
  · intro hk
    simp [run, runBody, hset, hact, finalizeStep, hk, hi]
  · intro hk hrm
    simp [run, runBody, hset, hact, finalizeStep, hk, hrm, hi]
  · intro hk hrm
    simp [run, runBody, hset, hact, finalizeStep, hk, hrm, hi]

/-- C1: the claim states that every run which allocates the temp root performs
the retain-or-delete finalize step exactly once, on every branch.  The code
violates this: a creation failure returns 1 with no finalize attempt at all
(the root is leaked), and on the success path a failing `rmtree` reaches the
generic handler, which attempts deletion a second time. -/
theorem c1_finalize_skipped_and_doubled :
    (run ⟨["requests"], false, none, none, false⟩ { wOk with venvOk := false }
        = (1, [Effect.mkdtemp, Effect.venvCreate])
      ∧ finalizeCount (run ⟨["requests"], false, none, none, false⟩
          { wOk with venvOk := false }).2 = 0)
    ∧ finalizeCount (run ⟨[], false, none, some "r.txt", false⟩
          { wOk with rmtreeOk := false }).2 = 2 := by
  decide

/-- C2: the claim states that `--run myscript.py` executes the script and
propagates its exit code (3 here).  In the code the option parameter
`run_script` shadows the module-level function `run_script`, so line 326 calls
a string: the resulting TypeError is caught by the generic handler and the
controller returns 1, never invoking the interpreter — while the shadowed
function itself would have returned 3. -/
theorem c2_run_script_shadowing :
    run ⟨["somepkg"], false, some "myscript.py", none, false⟩ { wOk with scriptExit := 3 }
        = (1, [Effect.mkdtemp, Effect.venvCreate, Effect.pipInstallPkgs,
               Effect.rmtree true])
    ∧ Effect.interpRunScript "myscript.py"
        ∉ (run ⟨["somepkg"], false, some "myscript.py", none, false⟩
            { wOk with scriptExit := 3 }).2
    ∧ run_script { wOk with scriptExit := 3 } "myscript.py"
        = (3, [Effect.interpRunScript "myscript.py"]) := by
  decide

/-- C3 counterexample: with no packages and no requirements file the claim
says the creation collaborator is never invoked and no temp directory is
created; in the code both happen before the validation error. -/
theorem c3_counterexample :
    run ⟨[], false, none, none, false⟩ wOk = (1, [Effect.mkdtemp, Effect.venvCreate])
    ∧ Effect.mkdtemp ∈ (run ⟨[], false, none, none, false⟩ wOk).2
    ∧ Effect.venvCreate ∈ (run ⟨[], false, none, none, false⟩ wOk).2 := by
  decide

/-- C3 (amended): given an empty package list and no requirements file the
controller does fail with the no-targets error and exit code 1, but only
after the temporary directory has been created and the creation collaborator
has been invoked; no finalize is performed on this path. -/
theorem c3_validation_after_creation (a : RunArgs) (w : World)
    (hp : pkgsTruthy a = false) (hr : reqTruthy a = false)
    (hm : w.mkdtempOk = true) (hv : w.venvOk = true)
    (hi : w.interrupt = IPoint.nothing) :
    run a w = (1, [Effect.mkdtemp, Effect.venvCreate]) := by
  simp [run, runBody, setupStage, setupPkgs, create_virtual_environment,
    install_from_requirements, hp, hr, hm, hv, hi]

/-- Witness for `c3_validation_after_creation` at the empty invocation. -/
theorem c3_witness :
    run ⟨[], false, none, none, false⟩ wOk = (1, [Effect.mkdtemp, Effect.venvCreate]) :=
  c3_validation_after_creation ⟨[], false, none, none, false⟩ wOk
    (by decide) (by decide) (by decide) (by decide) (by decide)

/-- C4 counterexample: the claim says specifier `"requests>=2.0"` yields
the import target `"requests"` and `"pkg[extra]==1.0"` yields `"pkg"`.  The code
does no stripping: the synthesized script contains no `import requests` line
for the former (the verbatim `import requests>=2.0` instead) and no
`import pkg` line for the latter. -/
theorem c4_counterexample :
    "import requests" ∉ create_test_file ["requests>=2.0"]
    ∧ "import requests>=2.0" ∈ create_test_file ["requests>=2.0"]
    ∧ "import pkg" ∉ create_test_file ["pkg[extra]==1.0"]
    ∧ "import pkg[extra]==1.0" ∈ create_test_file ["pkg[extra]==1.0"] := by
  decide

/-- C4 (amended): for every requested specifier that is not one of the
special-cased names (`requests`, `pandas`, `numpy`, case-insensitively), the
synthesized script contains an import statement whose target is the specifier
text verbatim — no version/extra qualifiers are stripped. -/
theorem c4_import_verbatim (p : String) (ps : List String) (hmem : p ∈ ps)
    (h1 : pyLower p ≠ "requests") (h2 : pyLower p ≠ "pandas")
    (h3 : pyLower p ≠ "numpy") :
    ("import " ++ p) ∈ create_test_file ps := by
  unfold create_test_file
  refine List.mem_append.mpr (Or.inl (List.mem_append.mpr (Or.inr ?_)))
  refine List.mem_flatMap.mpr ⟨p, hmem, ?_⟩
  simp [sampleFor, h1, h2, h3]

/-- Witness for `c4_import_verbatim` at `"requests>=2.0"`. -/
theorem c4_witness :
    "import requests>=2.0" ∈ create_test_file ["requests>=2.0"] :=
  c4_import_verbatim "requests>=2.0" ["requests>=2.0"]
    (by decide) (by decide) (by decide) (by decide)

/-- C5: at the terminal finalize step of a normally completing run, `--keep`
leaves the root on disk — no deletion is attempted anywhere in the run — and
reports the root's path, together with the synthesized script's path exactly
when one was created; without `--keep` the root is recursively deleted and
nothing is reported. -/
theorem c5_retain_or_delete (a : RunArgs) (w : World)
    (hm : w.mkdtempOk = true) (hv : w.venvOk = true)
    (hi : w.interrupt = IPoint.nothing)
    (hrf : reqTruthy a = true → w.reqFileExists = true ∧ w.pipReqOk = true)
    (hpk : pkgsTruthy a = true → w.pipPkgsOk = true)
    (hone : pkgsTruthy a = true ∨ reqTruthy a = true)
    (hrs : runScriptTruthy a = false)
    (hrm : w.rmtreeOk = true) :
    (a.keep = true →
      Effect.reportKeep (a.ide || pkgsTruthy a) ∈ (run a w).2
      ∧ ∀ b, Effect.rmtree b ∉ (run a w).2)
    ∧ (a.keep = false →
      Effect.rmtree false ∈ (run a w).2
      ∧ ∀ b, Effect.reportKeep b ∉ (run a w).2) := by
  obtain ⟨c, t2, hnf, hkeep, hok, _⟩ :=
    run_reaches_finalize a w hm hv hi hrf hpk hone hrs
  constructor
  · intro hk
    rw [hkeep hk]
    refine ⟨by simp, ?_⟩
    intro b hb
    simp only [List.mem_append, List.mem_singleton] at hb
    rcases hb with (hb | hb) | hb
    · have hfin := setupTrace_no_finalize a _ hb
      simp [isFinalize] at hfin
    · have hfin := hnf _ hb
      simp [isFinalize] at hfin
    · simp at hb
  · intro hk
    rw [hok hk hrm]
    refine ⟨by simp, ?_⟩
    intro b hb
    simp only [List.mem_append, List.mem_singleton] at hb
    rcases hb with (hb | hb) | hb
    · have hfin := setupTrace_no_finalize a _ hb
      simp [isFinalize] at hfin
    · have hfin := hnf _ hb
      simp [isFinalize] at hfin
    · simp at hb

/-- Witness for `c5_retain_or_delete`: a kept run reports the root and the
test file; the same run without `--keep` deletes the root. -/
theorem c5_witness :
    Effect.reportKeep true ∈ (run ⟨["p"], true, none, none, false⟩ wOk).2
    ∧ Effect.rmtree false ∈ (run ⟨["p"], false, none, none, false⟩ wOk).2 :=
  ⟨((c5_retain_or_delete ⟨["p"], true, none, none, false⟩ wOk
      (by decide) (by decide) (by decide) (by decide) (by decide)
      (by decide) (by decide) (by decide)).1 (by decide)).1,
   ((c5_retain_or_delete ⟨["p"], false, none, none, false⟩ wOk
      (by decide) (by decide) (by decide) (by decide) (by decide)
      (by decide) (by decide) (by decide)).2 (by decide)).1⟩

/-- C6: ordering and composition hold — with both a requirements file and a
package list, pip runs on the requirements file first and then on the package
list — and a failed requirements install aborts before the package install
begins; but contrary to the claim's final clause the abort performs *no*
teardown: the code returns 1 with zero finalize attempts and the root is
leaked. -/
theorem c6_ordering_no_teardown :

    run ⟨["p"], false, none, some "reqs.txt", false⟩ wOk
        = (0, [Effect.mkdtemp, Effect.venvCreate, Effect.pipInstallReq,
               Effect.pipInstallPkgs,
               Effect.writeTestFile (create_test_file ["p"]),
               Effect.startRepl, Effect.rmtree false])
    ∧ run ⟨["p"], false, none, some "reqs.txt", false⟩ { wOk with pipReqOk := false }
        = (1, [Effect.mkdtemp, Effect.venvCreate, Effect.pipInstallReq])
    ∧ finalizeCount (run ⟨["p"], false, none, some "reqs.txt", false⟩
        { wOk with pipReqOk := false }).2 = 0 := by
  decide

/-- C7 counterexample: a KeyboardInterrupt during the IDE wait — after the
root was allocated — is caught by the inner handler (line 354), and the run
finishes with exit code 0, not the distinguished 130 the claim requires for
an interrupt at any point after allocation. -/
theorem c7_counterexample :
    (run ⟨["pkgA"], false, none, none, false⟩
        { wOk with chosenIde := true, ideOpenOk := true,
                   interrupt := IPoint.atIdeWait }).1 = 0
    ∧ (run ⟨["pkgA"], false, none, none, false⟩
        { wOk with chosenIde := true, ideOpenOk := true,
                   interrupt := IPoint.atIdeWait }).1 ≠ 130
    ∧ Effect.rmtree false ∈ (run ⟨["pkgA"], false, none, none, false⟩
        { wOk with chosenIde := true, ideOpenOk := true,
                   interrupt := IPoint.atIdeWait }).2 := by
  decide

/-- C7 (amended): whenever a KeyboardInterrupt propagates out of the `try`
body with the root allocated (creation, installs, REPL, cleanup — but not the
locally handled IDE-selection and IDE-wait interrupts), the controller
returns the distinguished exit code 130 and still deletes the root
(best-effort) unless retain is set. -/
theorem c7_interrupt_toplevel_130 (a : RunArgs) (w : World) (t : List Effect)
    (h : runBody a w = (Except.error Exc.keyboardInterrupt, t, true)) :
    (run a w).1 = 130
    ∧ (a.keep = false → (run a w).2 = t ++ [Effect.rmtree true])
    ∧ (a.keep = true → (run a w).2 = t) := by
  cases hk : a.keep <;> simp [run, h, hk]

/-- Witness for `c7_interrupt_toplevel_130`: an interrupt during venv
creation. -/
theorem c7_witness :
    (run ⟨["pkgA"], false, none, none, false⟩
        { wOk with interrupt := IPoint.atVenvCreate }).1 = 130 :=
  (c7_interrupt_toplevel_130 ⟨["pkgA"], false, none, none, false⟩
    { wOk with interrupt := IPoint.atVenvCreate }
    [Effect.mkdtemp, Effect.venvCreate] rfl).1

/-- C8 counterexample: without `--keep`, a failing deletion on the success
path does raise past the finalize step — it is caught by the generic handler,
a second deletion is attempted, and the exit code changes from the session's
0 to 1, contrary to the claim that deletion errors are suppressed on every
path and never change the exit code. -/
theorem c8_counterexample :
    run ⟨[], false, none, some "rq.txt", false⟩ wOk
        = (0, [Effect.mkdtemp, Effect.venvCreate, Effect.pipInstallReq,
               Effect.startRepl, Effect.rmtree false])
    ∧ run ⟨[], false, none, some "rq.txt", false⟩ { wOk with rmtreeOk := false }
        = (1, [Effect.mkdtemp, Effect.venvCreate, Effect.pipInstallReq,
               Effect.startRepl, Effect.rmtree false, Effect.rmtree true]) := by
  decide

/-- C8 (amended): on the interrupt and generic-error paths deletion is invoked
with `ignore_errors=True`; on the normally completing path the deletion is
*not* suppressed: when it fails the generic handler catches it, attempts a
second best-effort deletion, and the controller returns exit code 1 instead
of the session's exit code. -/
theorem c8_deletion_error_path (a : RunArgs) (w : World)
    (hm : w.mkdtempOk = true) (hv : w.venvOk = true)
    (hi : w.interrupt = IPoint.nothing)
    (hrf : reqTruthy a = true → w.reqFileExists = true ∧ w.pipReqOk = true)
    (hpk : pkgsTruthy a = true → w.pipPkgsOk = true)
    (hone : pkgsTruthy a = true ∨ reqTruthy a = true)
    (hrs : runScriptTruthy a = false)
    (hk : a.keep = false) (hrm : w.rmtreeOk = false) :
    (run a w).1 = 1
    ∧ ∃ t0, (run a w).2 = t0 ++ [Effect.rmtree false, Effect.rmtree true] := by
  obtain ⟨c, t2, hnf, _, _, hfail⟩ :=
    run_reaches_finalize a w hm hv hi hrf hpk hone hrs
  rw [hfail hk hrm]
  exact ⟨rfl, setupTrace a ++ t2, by simp⟩

/-- Witness for `c8_deletion_error_path`. -/
theorem c8_witness :
    (run ⟨[], false, none, some "rq2.txt", false⟩ { wOk with rmtreeOk := false }).1 = 1 :=
  (c8_deletion_error_path ⟨[], false, none, some "rq2.txt", false⟩
    { wOk with rmtreeOk := false }
    (by decide) (by decide) (by decide) (by decide) (by decide)
    (by decide) (by decide) (by decide) (by decide)).1

/-- C9: if the script file does not exist, the module-level `run_script`
returns exit code 1 with no interpreter invocation (an empty effect trace),
and — being a total function into `Int × List Effect` — it returns rather
than raising. -/
theorem c9_missing_script (w : World) (s : String)
    (h : w.scriptExists = false) :
    run_script w s = (1, []) := by
  simp [run_script, h]

/-- Witness for `c9_missing_script`. -/
theorem c9_witness :
    run_script { wOk with scriptExists := false } "missing.py" = (1, []) :=
  c9_missing_script { wOk with scriptExists := false } "missing.py" (by decide)

/-- C10: if a requirements file is supplied but does not exist on disk,
`install_from_requirements` reports failure without invoking pip, and the
controller aborts with exit code 1 through the same failed-install branch —
the trace stops at venv creation, with no installer invocation and no later
lifecycle step. -/
theorem c10_missing_requirements (a : RunArgs) (w : World)
    (hr : reqTruthy a = true) (hf : w.reqFileExists = false)
    (hm : w.mkdtempOk = true) (hv : w.venvOk = true)
    (hi : w.interrupt = IPoint.nothing) :
    install_from_requirements w = (Except.ok false, [])
    ∧ run a w = (1, [Effect.mkdtemp, Effect.venvCreate]) := by
  constructor
  · simp [install_from_requirements, hf]
  · simp [run, runBody, setupStage, create_virtual_environment,
      install_from_requirements, hr, hf, hm, hv, hi]

/-- Witness for `c10_missing_requirements`. -/
theorem c10_witness :
    run ⟨[], false, none, some "missing.txt", false⟩ { wOk with reqFileExists := false }
      = (1, [Effect.mkdtemp, Effect.venvCreate]) :=
  (c10_missing_requirements ⟨[], false, none, some "missing.txt", false⟩
    { wOk with reqFileExists := false }
    (by decide) (by decide) (by decide) (by decide) (by decide)).2
